import Mathlib

/-!
Verification of the EtherscanVerifier contract (`submitBalance` / `balance`)
and of the submission client (`submitProof`) against their specification.

Strings and byte arrays are modelled as `List Nat` (byte values); `bytes32`
and `uint256` values as `Nat`.  Platform primitives that the contract only
calls (ABI decoding, `keccak256`, `sha256`, and the external RISC Zero
verifier contract reached through `VERIFIER.verify`) are fields of an
environment record: the contract's own logic is embedded concretely and is
parametric in those primitives, exactly as the EVM treats them.
-/

namespace EtherscanVerifier

/-- Journal tuple, the result of
`abi.decode(journalData, (bytes32, string, string, uint256, bytes32, string))`. -/
structure Journal where
  notaryKeyFingerprint : Nat
  method : List Nat
  url : List Nat
  timestamp : Nat
  queriesHash : Nat
  balance : List Nat
deriving DecidableEq, Repr

/-- Immutable deployment configuration set in the constructor. -/
structure Config where
  IMAGE_ID : Nat
  EXPECTED_NOTARY_KEY_FINGERPRINT : Nat
  EXPECTED_QUERIES_HASH : Nat
  expectedUrlPattern : List Nat
deriving DecidableEq, Repr

/-- Platform primitives used by `submitBalance`.  `decode` is `abi.decode`
(`none` models a decoding revert); `verify` is the external
`IRiscZeroVerifier.verify (seal, imageId, digest)` call, whose failure is a
thrown fault carrying an arbitrary revert payload. -/
structure Env where
  decode : List Nat → Option Journal
  keccak256 : List Nat → Nat
  sha256 : List Nat → Nat
  verify : List Nat → Nat → Nat → Except (List Nat) Unit

/-- Contract storage: the single persisted string `balance`. -/
structure ContractState where
  balance : List Nat
deriving DecidableEq, Repr

/-- The auto-generated getter of the public variable `balance`. -/
def balanceView (st : ContractState) : List Nat := st.balance

/-- Event `BalanceVerified(string balance, string url, uint256 timestamp, uint256 blockNumber)`. -/
structure BalanceVerifiedEvent where
  balance : List Nat
  url : List Nat
  timestamp : Nat
  blockNumber : Nat
deriving DecidableEq, Repr

/-- Abort conditions of `submitBalance`: the five named custom errors, plus
the unnamed revert raised by `abi.decode` on malformed journal bytes. -/
inductive SubmitError where
  | DecodeFailure
  | InvalidNotaryKeyFingerprint
  | InvalidQueriesHash
  | InvalidUrl
  | ZKProofVerificationFailed
  | InvalidBalance
deriving DecidableEq, Repr

/-- Byte content of the string literal `"GET"`. -/
def GETBytes : List Nat := [71, 69, 84]

/-- URL pattern check of `submitBalance`: the length guard
`urlBytes.length < patternBytes.length` followed by the loop comparing
`urlBytes[i]` with `patternBytes[i]` for every index of the pattern. -/
def urlStartsWith (urlBytes patternBytes : List Nat) : Bool :=
  if urlBytes.length < patternBytes.length then
    false
  else
    (List.range patternBytes.length).all fun i => urlBytes.getD i 0 == patternBytes.getD i 0

/-- Transition `submitBalance(bytes journalData, bytes seal)`.  Follows the source
line by line: decode, the five checks in order (notary fingerprint, method
via keccak comparison with `"GET"`, queries hash, URL pattern, non-empty
balance), then the `try VERIFIER.verify(seal, IMAGE_ID, sha256(journalData))`
whose `catch` re-raises `ZKProofVerificationFailed`; on success the storage
write `balance = _balance` and the `BalanceVerified` emission. -/
def submitBalance (env : Env) (cfg : Config) (blockNumber : Nat)
    (st : ContractState) (journalData sealBytes : List Nat) :
    Except SubmitError (ContractState × List BalanceVerifiedEvent) :=
  match env.decode journalData with
  | none => .error .DecodeFailure
  | some j =>
    if j.notaryKeyFingerprint ≠ cfg.EXPECTED_NOTARY_KEY_FINGERPRINT then
      .error .InvalidNotaryKeyFingerprint
    else if env.keccak256 j.method ≠ env.keccak256 GETBytes then
      .error .InvalidUrl
    else if j.queriesHash ≠ cfg.EXPECTED_QUERIES_HASH then
      .error .InvalidQueriesHash
    else if ¬ urlStartsWith j.url cfg.expectedUrlPattern then
      .error .InvalidUrl
    else if j.balance.length = 0 then
      .error .InvalidBalance
    else
      match env.verify sealBytes cfg.IMAGE_ID (env.sha256 journalData) with
      | .error _ => .error .ZKProofVerificationFailed
      | .ok _ =>
        .ok ({ st with balance := j.balance },
             [⟨j.balance, j.url, j.timestamp, blockNumber⟩])

/-- Environment identical to `env` except that every decoded journal has
its timestamp field replaced by `t`: used to state that validation places
no constraint on the timestamp. -/
def withTimestamp (env : Env) (t : Nat) : Env :=
  { env with decode := fun b => (env.decode b).map fun j => { j with timestamp := t } }

/-- Apply a function to the emitted events of a `submitBalance` outcome,
leaving the state and any error untouched. -/
def mapEvents (f : BalanceVerifiedEvent → BalanceVerifiedEvent) :
    Except SubmitError (ContractState × List BalanceVerifiedEvent) →
    Except SubmitError (ContractState × List BalanceVerifiedEvent)
  | .ok (st, evs) => .ok (st, evs.map f)
  | .error e => .error e

/-- Ledger-level view of one `submitBalance` transaction: on a revert the
EVM rolls back, so the post-state is the pre-state and no log is kept;
on success the new state and the emitted events are committed together. -/
def submitBalanceTx (env : Env) (cfg : Config) (blockNumber : Nat)
    (st : ContractState) (journalData sealBytes : List Nat) :
    ContractState × List BalanceVerifiedEvent × Option SubmitError :=
  match submitBalance env cfg blockNumber st journalData sealBytes with
  | .ok (st', evs) => (st', evs, none)
  | .error e => (st, [], some e)

end EtherscanVerifier

namespace SubmitProofClient

open EtherscanVerifier

/-- Error object thrown by the RPC library: a message, an optional revert
payload at the top level, and an optional nested cause that may itself
carry a revert payload. -/
structure ErrCause where
  data : Option (List Nat)
deriving DecidableEq, Repr

/-- Thrown error as inspected by `getRevertData`: top-level `data` field,
plus an optional `cause` object with its own `data` field. -/
structure JsError where
  message : String
  data : Option (List Nat)
  cause : Option ErrCause
deriving DecidableEq, Repr

/-- Function `getRevertData`: return the top-level `data` field when
present, otherwise the `cause.data` field when present, otherwise nothing. -/
def getRevertData (e : JsError) : Option (List Nat) :=
  match e.data with
  | some d => some d
  | none =>
    match e.cause with
    | some c => c.data
    | none => none

/-- Result of `decodeErrorResult`: the matched error name from the ABI. -/
structure DecodedError where
  errorName : String
deriving DecidableEq, Repr

/-- What the client prints for a failed simulate or submit call: the
structured error kind when the revert payload decodes against the known
taxonomy, the generic message plus the raw revert payload when it does not,
and the generic message alone when no revert payload is found. -/
inductive Diagnosis where
  | structured (errorName : String)
  | rawFallback (message : String) (revertData : List Nat)
  | generic (message : String)
deriving DecidableEq, Repr

/-- Error-reporting logic shared by the simulate and submit catch blocks:
extract the revert payload, try the structured decode, fall back as the
source does. -/
def diagnose (decodeErrorResult : List Nat → Option DecodedError) (e : JsError) : Diagnosis :=
  match getRevertData e with
  | some d =>
    match decodeErrorResult d with
    | some de => .structured de.errorName
    | none => .rawFallback e.message d
  | none => .generic e.message

/-- Transaction receipt fields the client reads. -/
structure Receipt where
  blockNumber : Nat
  gasUsed : Nat
deriving DecidableEq, Repr

/-- Return value of `submitProof`. -/
structure SubmitProofResult where
  transactionHash : List Nat
  blockNumber : Nat
  gasUsed : Nat
  balance : List Nat
deriving DecidableEq, Repr

/-- Terminal failures of the modelled portion of `submitProof`. -/
inductive ClientFailure where
  | journalDecodeFailure
  | simulationFailed (d : Diagnosis)
  | submissionFailed (d : Diagnosis)
deriving DecidableEq, Repr

/-- Observable external calls made by the client, in order. -/
inductive ClientAction where
  | simulateCall
  | submitCall
  | confirmCall
deriving DecidableEq, Repr

/-- External capabilities of the submission client: the client-side ABI
decode of the journal tuple, the revert-payload decoder, the read-only
simulation, the mutating write, receipt waiting, and the read-back of the
persisted balance. -/
structure ClientEnv where
  decodeJournalTuple : List Nat → Option Journal
  decodeErrorResult : List Nat → Option DecodedError
  simulateContract : List Nat → List Nat → Except JsError Unit
  writeContract : List Nat → List Nat → Except JsError (List Nat)
  waitForTransactionReceipt : List Nat → Receipt
  readBalance : Unit → List Nat

/-- Core of `submitProof` after the proof bundle is loaded: decode the
journal tuple (a decoding failure throws), simulate `submitBalance` (a
failure is diagnosed and thrown, so the write is never reached), send the
mutating transaction with identical arguments (same diagnosis on failure),
wait for the receipt and re-read the persisted balance.  The first
component lists the external calls actually performed. -/
def submitProofCore (env : ClientEnv) (journalData zkProof : List Nat) :
    List ClientAction × Except ClientFailure SubmitProofResult :=
  match env.decodeJournalTuple journalData with
  | none => ([], .error .journalDecodeFailure)
  | some _ =>
    match env.simulateContract journalData zkProof with
    | .error e =>
      ([.simulateCall], .error (.simulationFailed (diagnose env.decodeErrorResult e)))
    | .ok _ =>
      match env.writeContract journalData zkProof with
      | .error e =>
        ([.simulateCall, .submitCall],
         .error (.submissionFailed (diagnose env.decodeErrorResult e)))
      | .ok hash =>
        let receipt := env.waitForTransactionReceipt hash
        let storedBalance := env.readBalance ()
        ([.simulateCall, .submitCall, .confirmCall],
         .ok ⟨hash, receipt.blockNumber, receipt.gasUsed, storedBalance⟩)

end SubmitProofClient

namespace Witnesses

open EtherscanVerifier SubmitProofClient

/-- Journal accepted by `cfg0`: matching fingerprint and queries hash,
method `"GET"`, a URL extending the configured pattern, non-empty balance. -/
def jOk : Journal :=
  { notaryKeyFingerprint := 7, method := GETBytes,
    url := [104, 116, 116, 112, 63], timestamp := 1700000000,
    queriesHash := 9, balance := [49, 50, 51] }

/-- Journal whose method is the lowercase string `"get"`. -/
def jLowerGet : Journal :=
  { jOk with method := [103, 101, 116] }

/-- Journal whose URL is strictly shorter than the configured pattern. -/
def jShortUrl : Journal :=
  { jOk with url := [104, 116] }

/-- Journal with a mismatched notary fingerprint. -/
def jBadFp : Journal :=
  { jOk with notaryKeyFingerprint := 8 }

/-- Journal with an empty extracted balance. -/
def jEmptyBal : Journal :=
  { jOk with balance := [] }

/-- Concrete deployment configuration used by the witnesses. -/
def cfg0 : Config :=
  { IMAGE_ID := 3, EXPECTED_NOTARY_KEY_FINGERPRINT := 7,
    EXPECTED_QUERIES_HASH := 9, expectedUrlPattern := [104, 116, 116, 112] }

/-- Environment whose decoder yields `jOk` and whose verifier accepts. -/
def env0 : Env :=
  { decode := fun _ => some jOk,
    keccak256 := fun _ => 0,
    sha256 := fun _ => 0,
    verify := fun _ _ _ => .ok () }

/-- Environment with an injective keccak model whose decoder yields the
lowercase-method journal. -/
def envInj : Env :=
  { decode := fun _ => some jLowerGet,
    keccak256 := Encodable.encode,
    sha256 := fun _ => 0,
    verify := fun _ _ _ => .ok () }

/-- Environment whose decoder yields the short-URL journal. -/
def envShortUrl : Env :=
  { env0 with decode := fun _ => some jShortUrl }

/-- Environment whose decoder yields the bad-fingerprint journal. -/
def envBadFp : Env :=
  { env0 with decode := fun _ => some jBadFp }

/-- Environment whose decoder yields the empty-balance journal. -/
def envEmptyBal : Env :=
  { env0 with decode := fun _ => some jEmptyBal }

/-- Environment whose verifier throws a fault with payload `[13]`. -/
def envVerifyFault : Env :=
  { env0 with verify := fun _ _ _ => .error [13] }

/-- Simulation error whose revert payload is the four selector bytes that
the client's ABI decoder recognises as `InvalidQueriesHash`. -/
def jsErrQH : JsError :=
  { message := "execution reverted", data := some [1, 2, 3, 4], cause := none }

/-- Client environment whose simulation fails with `jsErrQH` and whose
revert decoder recognises exactly the payload `[1, 2, 3, 4]`. -/
def envC8 : ClientEnv :=
  { decodeJournalTuple := fun _ => some jOk,
    decodeErrorResult := fun d => if d = [1, 2, 3, 4] then some ⟨"InvalidQueriesHash"⟩ else none,
    simulateContract := fun _ _ => .error jsErrQH,
    writeContract := fun _ _ => .ok [9],
    waitForTransactionReceipt := fun _ => ⟨1, 2⟩,
    readBalance := fun _ => [49, 50, 51] }

/-- Client environment whose journal decode fails while simulation and
submission would both succeed. -/
def envC9 : ClientEnv :=
  { envC8 with
    decodeJournalTuple := fun _ => none,
    simulateContract := fun _ _ => .ok () }

end Witnesses

namespace EtherscanVerifier

/-- Characterisation of the URL loop: it succeeds exactly when the URL is
at least as long as the pattern and agrees with it at every index of the
pattern. -/
lemma urlStartsWith_iff (url pat : List Nat) :
    urlStartsWith url pat = true ↔
      pat.length ≤ url.length ∧ ∀ i < pat.length, url.getD i 0 = pat.getD i 0 := by
  unfold urlStartsWith
  split
  · rename_i hlt
    constructor
    · intro h; exact absurd h (by simp)
    · rintro ⟨hle, -⟩; omega
  · rename_i hlt
    rw [List.all_eq_true]
    constructor
    · intro h
      refine ⟨by omega, fun i hi => ?_⟩
      have := h i (List.mem_range.mpr hi)
      exact beq_iff_eq.mp (by simpa using this)
    · rintro ⟨-, h⟩ i hi
      have hi' := List.mem_range.mp hi
      simpa using beq_iff_eq.mpr (h i hi')

end EtherscanVerifier

namespace EtherscanVerifier

/-- Once the decode and the five checks succeed, `submitBalance` is exactly
the verification call on `(sealBytes, IMAGE_ID, sha256 journalData)`, its
fault collapsed to `ZKProofVerificationFailed` and its success committing
the balance write and the single event. -/
lemma submitBalance_checks_pass (env : Env) (cfg : Config) (blockNumber : Nat)
    (st : ContractState) (journalData sealBytes : List Nat) (j : Journal)
    (hdec : env.decode journalData = some j)
    (hfp : j.notaryKeyFingerprint = cfg.EXPECTED_NOTARY_KEY_FINGERPRINT)
    (hm : env.keccak256 j.method = env.keccak256 GETBytes)
    (hq : j.queriesHash = cfg.EXPECTED_QUERIES_HASH)
    (hu : urlStartsWith j.url cfg.expectedUrlPattern = true)
    (hb : j.balance ≠ []) :
    submitBalance env cfg blockNumber st journalData sealBytes =
      match env.verify sealBytes cfg.IMAGE_ID (env.sha256 journalData) with
      | .ok _ => .ok ({ balance := j.balance },
                      [⟨j.balance, j.url, j.timestamp, blockNumber⟩])
      | .error _ => .error .ZKProofVerificationFailed := by
  unfold submitBalance
  rw [hdec]
  dsimp only
  rw [if_neg (by simp [hfp]), if_neg (by simp [hm]), if_neg (by simp [hq]),
    if_neg (by simp [hu]), if_neg (by simpa [List.length_eq_zero] using hb)]
  cases hv : env.verify sealBytes cfg.IMAGE_ID (env.sha256 journalData) <;> rfl

/-- Elimination form: a successful `submitBalance` forces the decode, the
five checks and the verification to have succeeded, and determines the new
state and the event list. -/
lemma submitBalance_ok_elim (env : Env) (cfg : Config) (blockNumber : Nat)
    (st : ContractState) (journalData sealBytes : List Nat)
    (st' : ContractState) (evs : List BalanceVerifiedEvent)
    (h : submitBalance env cfg blockNumber st journalData sealBytes = .ok (st', evs)) :
    ∃ j, env.decode journalData = some j ∧
      j.notaryKeyFingerprint = cfg.EXPECTED_NOTARY_KEY_FINGERPRINT ∧
      env.keccak256 j.method = env.keccak256 GETBytes ∧
      j.queriesHash = cfg.EXPECTED_QUERIES_HASH ∧
      urlStartsWith j.url cfg.expectedUrlPattern = true ∧
      j.balance ≠ [] ∧
      env.verify sealBytes cfg.IMAGE_ID (env.sha256 journalData) = .ok () ∧
      st' = { balance := j.balance } ∧
      evs = [⟨j.balance, j.url, j.timestamp, blockNumber⟩] := by
  unfold submitBalance at h
  rcases hdec : env.decode journalData with - | j <;> rw [hdec] at h
  · exact absurd h (by simp)
  · refine ⟨j, rfl, ?_⟩
    dsimp only at h
    split_ifs at h with h1 h2 h3 h4 h5
    rcases hv : env.verify sealBytes cfg.IMAGE_ID (env.sha256 journalData) with e | u <;>
      rw [hv] at h
    · exact absurd h (by simp)
    · cases u
      have h' := Except.ok.inj h
      obtain ⟨hst, hevs⟩ := Prod.ext_iff.mp h'
      refine ⟨not_ne_iff.mp h1, not_ne_iff.mp h2, not_ne_iff.mp h3, h4,
        fun hnil => h5 (by simp [hnil]), rfl, hst.symm, hevs.symm⟩

end EtherscanVerifier

namespace EtherscanVerifier

/-- C1: for every journalBytes that decodes to the six-field tuple, passes
the notary-fingerprint, method, queriesHash, URL-prefix and non-empty
extractedValue checks, and for which the verification primitive accepts
`(sealBytes, IMAGE_ID, sha256 journalBytes)`, `submitBalance` completes
successfully, `balance()` afterwards returns exactly the extracted value,
and exactly one `BalanceVerified` event is emitted carrying the extracted
value, the URL, the timestamp and the current block height. -/
theorem submitBalance_success_commits (env : Env) (cfg : Config) (blockNumber : Nat)
    (st : ContractState) (journalData sealBytes : List Nat) (j : Journal)
    (hdec : env.decode journalData = some j)
    (hfp : j.notaryKeyFingerprint = cfg.EXPECTED_NOTARY_KEY_FINGERPRINT)
    (hm : env.keccak256 j.method = env.keccak256 GETBytes)
    (hq : j.queriesHash = cfg.EXPECTED_QUERIES_HASH)
    (hu : urlStartsWith j.url cfg.expectedUrlPattern = true)
    (hb : j.balance ≠ [])
    (hv : env.verify sealBytes cfg.IMAGE_ID (env.sha256 journalData) = .ok ()) :
    ∃ st', submitBalance env cfg blockNumber st journalData sealBytes =
        .ok (st', [⟨j.balance, j.url, j.timestamp, blockNumber⟩]) ∧
      balanceView st' = j.balance := by
  refine ⟨{ balance := j.balance }, ?_, rfl⟩
  rw [submitBalance_checks_pass env cfg blockNumber st journalData sealBytes j
    hdec hfp hm hq hu hb, hv]

/-- Witness for C1 at a concrete accepting environment. -/
theorem submitBalance_success_commits_witness :
    ∃ st', submitBalance Witnesses.env0 Witnesses.cfg0 5 ⟨[]⟩ [1] [2] =
        .ok (st', [⟨[49, 50, 51], [104, 116, 116, 112, 63], 1700000000, 5⟩]) ∧
      balanceView st' = [49, 50, 51] :=
  submitBalance_success_commits Witnesses.env0 Witnesses.cfg0 5 ⟨[]⟩ [1] [2] Witnesses.jOk
    rfl rfl rfl rfl (by decide) (by decide) rfl

/-- C2: every invocation of `submitBalance` either reverts, leaving the
persisted balance unchanged and emitting no event, or succeeds, committing
the state write together with exactly one `BalanceVerified` event. -/
theorem submitBalanceTx_all_or_nothing (env : Env) (cfg : Config) (blockNumber : Nat)
    (st : ContractState) (journalData sealBytes : List Nat) :
    (∃ e, submitBalance env cfg blockNumber st journalData sealBytes = .error e ∧
       submitBalanceTx env cfg blockNumber st journalData sealBytes = (st, [], some e)) ∨
    (∃ st' evs, submitBalance env cfg blockNumber st journalData sealBytes = .ok (st', evs) ∧
       submitBalanceTx env cfg blockNumber st journalData sealBytes = (st', evs, none) ∧
       evs.length = 1) := by
  rcases h : submitBalance env cfg blockNumber st journalData sealBytes with e | ⟨st', evs⟩
  · exact Or.inl ⟨e, rfl, by simp [submitBalanceTx, h]⟩
  · refine Or.inr ⟨st', evs, rfl, by simp [submitBalanceTx, h], ?_⟩
    obtain ⟨j, -, -, -, -, -, -, -, -, hevs⟩ :=
      submitBalance_ok_elim env cfg blockNumber st journalData sealBytes st' evs h
    simp [hevs]

/-- C3: whenever all five local checks pass, `submitBalance` is the
verification call on `(sealBytes, IMAGE_ID, sha256 journalData)` — the
digest of the raw undecoded journal bytes — and every fault of the
primitive, whatever its cause, is re-raised as `ZKProofVerificationFailed`. -/
theorem submitBalance_verify_binding (env : Env) (cfg : Config) (blockNumber : Nat)
    (st : ContractState) (journalData sealBytes : List Nat) (j : Journal)
    (hdec : env.decode journalData = some j)
    (hfp : j.notaryKeyFingerprint = cfg.EXPECTED_NOTARY_KEY_FINGERPRINT)
    (hm : env.keccak256 j.method = env.keccak256 GETBytes)
    (hq : j.queriesHash = cfg.EXPECTED_QUERIES_HASH)
    (hu : urlStartsWith j.url cfg.expectedUrlPattern = true)
    (hb : j.balance ≠ []) :
    (submitBalance env cfg blockNumber st journalData sealBytes =
      match env.verify sealBytes cfg.IMAGE_ID (env.sha256 journalData) with
      | .ok _ => .ok ({ balance := j.balance },
                      [⟨j.balance, j.url, j.timestamp, blockNumber⟩])
      | .error _ => .error .ZKProofVerificationFailed) ∧
    (∀ cause, env.verify sealBytes cfg.IMAGE_ID (env.sha256 journalData) = .error cause →
      submitBalance env cfg blockNumber st journalData sealBytes =
        .error .ZKProofVerificationFailed) := by
  have h := submitBalance_checks_pass env cfg blockNumber st journalData sealBytes j
    hdec hfp hm hq hu hb
  refine ⟨h, fun cause hc => ?_⟩
  rw [h, hc]

/-- Witness for C3 at a concrete environment whose verifier throws. -/
theorem submitBalance_verify_binding_witness :
    submitBalance Witnesses.envVerifyFault Witnesses.cfg0 0 ⟨[]⟩ [1] [2] =
      .error .ZKProofVerificationFailed :=
  (submitBalance_verify_binding Witnesses.envVerifyFault Witnesses.cfg0 0 ⟨[]⟩ [1] [2]
    Witnesses.jOk rfl rfl rfl rfl (by decide) (by decide)).2 [13] rfl

/-- C4: a journal whose decoded notary fingerprint differs from the
configured one aborts with `InvalidNotaryKeyFingerprint`, whatever the
remaining fields hold. -/
theorem submitBalance_bad_fingerprint (env : Env) (cfg : Config) (blockNumber : Nat)
    (st : ContractState) (journalData sealBytes : List Nat) (j : Journal)
    (hdec : env.decode journalData = some j)
    (hfp : j.notaryKeyFingerprint ≠ cfg.EXPECTED_NOTARY_KEY_FINGERPRINT) :
    submitBalance env cfg blockNumber st journalData sealBytes =
      .error .InvalidNotaryKeyFingerprint := by
  unfold submitBalance
  rw [hdec]
  dsimp only
  rw [if_pos hfp]

/-- Witness for C4 at a concrete mismatching journal. -/
theorem submitBalance_bad_fingerprint_witness :
    submitBalance Witnesses.envBadFp Witnesses.cfg0 0 ⟨[]⟩ [1] [2] =
      .error .InvalidNotaryKeyFingerprint :=
  submitBalance_bad_fingerprint Witnesses.envBadFp Witnesses.cfg0 0 ⟨[]⟩ [1] [2]
    Witnesses.jBadFp rfl (by decide)

/-- C5: under an injective keccak model, a journal whose method is not the
exact string GET aborts with `InvalidUrl` — the method mismatch is folded
into the URL error kind. -/
theorem submitBalance_bad_method (env : Env) (cfg : Config) (blockNumber : Nat)
    (st : ContractState) (journalData sealBytes : List Nat) (j : Journal)
    (hinj : Function.Injective env.keccak256)
    (hdec : env.decode journalData = some j)
    (hfp : j.notaryKeyFingerprint = cfg.EXPECTED_NOTARY_KEY_FINGERPRINT)
    (hm : j.method ≠ GETBytes) :
    submitBalance env cfg blockNumber st journalData sealBytes = .error .InvalidUrl := by
  unfold submitBalance
  rw [hdec]
  dsimp only
  rw [if_neg (by simp [hfp]), if_pos (fun heq => hm (hinj heq))]

/-- Witness for C5: lowercase method string with an injective keccak. -/
theorem submitBalance_bad_method_witness :
    submitBalance Witnesses.envInj Witnesses.cfg0 0 ⟨[]⟩ [1] [2] = .error .InvalidUrl :=
  submitBalance_bad_method Witnesses.envInj Witnesses.cfg0 0 ⟨[]⟩ [1] [2]
    Witnesses.jLowerGet Encodable.encode_injective rfl rfl (by decide)

end EtherscanVerifier

namespace EtherscanVerifier

/-- C6: once the notary, method and queriesHash checks pass, the URL check
passes exactly when the URL is at least as long as the configured pattern
and matches it byte-for-byte on the pattern's indices — whatever bytes
follow — and any shorter URL or any byte mismatch within the pattern's
length aborts with `InvalidUrl`. -/
theorem submitBalance_url_check (env : Env) (cfg : Config) (blockNumber : Nat)
    (st : ContractState) (journalData sealBytes : List Nat) (j : Journal)
    (hdec : env.decode journalData = some j)
    (hfp : j.notaryKeyFingerprint = cfg.EXPECTED_NOTARY_KEY_FINGERPRINT)
    (hm : env.keccak256 j.method = env.keccak256 GETBytes)
    (hq : j.queriesHash = cfg.EXPECTED_QUERIES_HASH) :
    ((cfg.expectedUrlPattern.length ≤ j.url.length ∧
        ∀ i < cfg.expectedUrlPattern.length, j.url.getD i 0 = cfg.expectedUrlPattern.getD i 0) →
      submitBalance env cfg blockNumber st journalData sealBytes ≠ .error .InvalidUrl) ∧
    ((j.url.length < cfg.expectedUrlPattern.length ∨
        ∃ i < cfg.expectedUrlPattern.length, j.url.getD i 0 ≠ cfg.expectedUrlPattern.getD i 0) →
      submitBalance env cfg blockNumber st journalData sealBytes = .error .InvalidUrl) := by
  constructor
  · intro hpre
    have hu : urlStartsWith j.url cfg.expectedUrlPattern = true :=
      (urlStartsWith_iff j.url cfg.expectedUrlPattern).mpr hpre
    unfold submitBalance
    rw [hdec]
    dsimp only
    rw [if_neg (by simp [hfp]), if_neg (by simp [hm]), if_neg (by simp [hq]),
      if_neg (by simp [hu])]
    split_ifs
    · simp
    · cases env.verify sealBytes cfg.IMAGE_ID (env.sha256 journalData) <;> simp
  · intro hbad
    have hu : ¬ (urlStartsWith j.url cfg.expectedUrlPattern = true) := by
      rw [urlStartsWith_iff]
      rintro ⟨hle, hall⟩
      rcases hbad with hlt | ⟨i, hi, hne⟩
      · omega
      · exact hne (hall i hi)
    unfold submitBalance
    rw [hdec]
    dsimp only
    rw [if_neg (by simp [hfp]), if_neg (by simp [hm]), if_neg (by simp [hq]), if_pos hu]

/-- Witness for C6: a URL strictly shorter than the pattern. -/
theorem submitBalance_url_check_witness :
    submitBalance Witnesses.envShortUrl Witnesses.cfg0 0 ⟨[]⟩ [1] [2] = .error .InvalidUrl :=
  (submitBalance_url_check Witnesses.envShortUrl Witnesses.cfg0 0 ⟨[]⟩ [1] [2]
    Witnesses.jShortUrl rfl rfl rfl rfl).2 (Or.inl (by decide))

/-- C7: a journal passing the notary, method, queriesHash and URL checks
but carrying an empty extracted value aborts with `InvalidBalance` whatever
the verification primitive would do: the primitive is never consulted. -/
theorem submitBalance_empty_balance (env : Env) (cfg : Config) (blockNumber : Nat)
    (st : ContractState) (journalData sealBytes : List Nat) (j : Journal)
    (hdec : env.decode journalData = some j)
    (hfp : j.notaryKeyFingerprint = cfg.EXPECTED_NOTARY_KEY_FINGERPRINT)
    (hm : env.keccak256 j.method = env.keccak256 GETBytes)
    (hq : j.queriesHash = cfg.EXPECTED_QUERIES_HASH)
    (hu : urlStartsWith j.url cfg.expectedUrlPattern = true)
    (hb : j.balance = []) :
    ∀ v, submitBalance { env with verify := v } cfg blockNumber st journalData sealBytes =
      .error .InvalidBalance := by
  intro v
  unfold submitBalance
  dsimp only
  rw [hdec]
  dsimp only
  rw [if_neg (by simp [hfp]), if_neg (by simp [hm]), if_neg (by simp [hq]),
    if_neg (by simp [hu]), if_pos (by simp [hb])]

/-- Witness for C7: an empty balance with a verifier that would accept. -/
theorem submitBalance_empty_balance_witness :
    submitBalance { Witnesses.envEmptyBal with verify := fun _ _ _ => .ok () }
      Witnesses.cfg0 0 ⟨[]⟩ [1] [2] = .error .InvalidBalance :=
  submitBalance_empty_balance Witnesses.envEmptyBal Witnesses.cfg0 0 ⟨[]⟩ [1] [2]
    Witnesses.jEmptyBal rfl rfl rfl rfl (by decide) rfl (fun _ _ _ => .ok ())

end EtherscanVerifier

namespace EtherscanVerifier

/-- C10: the acceptance decision of `submitBalance` never reads the
persisted balance (the outcome is the same from every starting state),
places no constraint on the journal's timestamp (changing the decoded
timestamp only changes the value echoed into the event), and an accepted
`(journalBytes, sealBytes)` pair is accepted again from any state at any
later block height, rewriting the balance to the same extracted value. -/
theorem submitBalance_replayable (env : Env) (cfg : Config) (blockNumber : Nat)
    (st : ContractState) (journalData sealBytes : List Nat) :
    (∀ st₂, submitBalance env cfg blockNumber st₂ journalData sealBytes =
       submitBalance env cfg blockNumber st journalData sealBytes) ∧
    (∀ t, submitBalance (withTimestamp env t) cfg blockNumber st journalData sealBytes =
       mapEvents (fun ev => { ev with timestamp := t })
         (submitBalance env cfg blockNumber st journalData sealBytes)) ∧
    (∀ st' evs, submitBalance env cfg blockNumber st journalData sealBytes = .ok (st', evs) →
       ∀ blockNumber₂ st₂, submitBalance env cfg blockNumber₂ st₂ journalData sealBytes =
         .ok (st', evs.map fun ev => { ev with blockNumber := blockNumber₂ })) := by
  refine ⟨?_, ?_, ?_⟩
  · intro st₂
    unfold submitBalance
    cases env.decode journalData <;> rfl
  · intro t
    unfold submitBalance withTimestamp
    dsimp only
    cases env.decode journalData
    · rfl
    · dsimp only [Option.map]
      split_ifs <;>
        first
          | rfl
          | (cases env.verify sealBytes cfg.IMAGE_ID (env.sha256 journalData) <;> rfl)
  · intro st' evs h blockNumber₂ st₂
    obtain ⟨j, hdec, hfp, hm, hq, hu, hb, hv, hst, hevs⟩ :=
      submitBalance_ok_elim env cfg blockNumber st journalData sealBytes st' evs h
    subst hst hevs
    rw [submitBalance_checks_pass env cfg blockNumber₂ st₂ journalData sealBytes j
      hdec hfp hm hq hu hb, hv]
    rfl

/-- Witness for C10: the accepting environment replayed at a later block
from a different starting state. -/
theorem submitBalance_replayable_witness :
    submitBalance Witnesses.env0 Witnesses.cfg0 8 ⟨[55]⟩ [1] [2] =
      .ok (⟨[49, 50, 51]⟩, [⟨[49, 50, 51], [104, 116, 116, 112, 63], 1700000000, 8⟩]) :=
  (submitBalance_replayable Witnesses.env0 Witnesses.cfg0 5 ⟨[]⟩ [1] [2]).2.2
    ⟨[49, 50, 51]⟩ [⟨[49, 50, 51], [104, 116, 116, 112, 63], 1700000000, 5⟩] rfl 8 ⟨[55]⟩

end EtherscanVerifier

namespace SubmitProofClient

/-- C8: when the read-only simulation of `submitBalance` fails, the client
reports the structured error kind decoded from the revert payload — or the
generic message plus the raw payload when the payload is unrecognised —
propagates the failure, and never attempts the mutating write transaction. -/
theorem submitProof_simulation_gate (env : ClientEnv) (journalData zkProof : List Nat)
    (j : EtherscanVerifier.Journal) (e : JsError)
    (hdec : env.decodeJournalTuple journalData = some j)
    (hsim : env.simulateContract journalData zkProof = .error e) :
    submitProofCore env journalData zkProof =
      ([.simulateCall], .error (.simulationFailed (diagnose env.decodeErrorResult e))) ∧
    ClientAction.submitCall ∉ (submitProofCore env journalData zkProof).1 ∧
    (∀ d k, getRevertData e = some d → env.decodeErrorResult d = some k →
      diagnose env.decodeErrorResult e = .structured k.errorName) ∧
    (∀ d, getRevertData e = some d → env.decodeErrorResult d = none →
      diagnose env.decodeErrorResult e = .rawFallback e.message d) := by
  have hmain : submitProofCore env journalData zkProof =
      ([.simulateCall], .error (.simulationFailed (diagnose env.decodeErrorResult e))) := by
    unfold submitProofCore
    rw [hdec]
    dsimp only
    rw [hsim]
  refine ⟨hmain, by rw [hmain]; simp, ?_, ?_⟩
  · intro d k hd hk
    unfold diagnose
    rw [hd]
    dsimp only
    rw [hk]
  · intro d hd hk
    unfold diagnose
    rw [hd]
    dsimp only
    rw [hk]

/-- Witness for C8: a simulation rejected with a revert payload that the
client decodes to `InvalidQueriesHash`; the submit step is never reached. -/
theorem submitProof_simulation_gate_witness :
    submitProofCore Witnesses.envC8 [0] [1] =
      ([.simulateCall], .error (.simulationFailed (.structured "InvalidQueriesHash"))) := by
  have h := (submitProof_simulation_gate Witnesses.envC8 [0] [1]
    Witnesses.jOk Witnesses.jsErrQH rfl rfl).1
  rw [h]
  rfl

/-- C9 counterexample: a client environment whose journal decode fails while
simulation and submission would both succeed; `submitProof` nevertheless
aborts at the decode step and never performs the simulate or submit calls,
refuting the claim that a decode failure does not block submission. -/
theorem submitProof_decode_blocks_counterexample :
    submitProofCore Witnesses.envC9 [0] [1] = ([], .error .journalDecodeFailure) ∧
    ClientAction.simulateCall ∉ (submitProofCore Witnesses.envC9 [0] [1]).1 ∧
    ClientAction.submitCall ∉ (submitProofCore Witnesses.envC9 [0] [1]).1 :=
  ⟨rfl, by simp [Witnesses.envC9, submitProofCore], by simp [Witnesses.envC9, submitProofCore]⟩

/-- C9 (amended): a failure of the client-side journal decode is fatal: the
invocation stops with the decode failure and neither the simulation nor the
mutating transaction is ever attempted. -/
theorem submitProof_decode_fatal (env : ClientEnv) (journalData zkProof : List Nat)
    (h : env.decodeJournalTuple journalData = none) :
    submitProofCore env journalData zkProof = ([], .error .journalDecodeFailure) ∧
    ClientAction.simulateCall ∉ (submitProofCore env journalData zkProof).1 ∧
    ClientAction.submitCall ∉ (submitProofCore env journalData zkProof).1 := by
  have hmain : submitProofCore env journalData zkProof =
      ([], .error .journalDecodeFailure) := by
    unfold submitProofCore
    rw [h]
  exact ⟨hmain, by rw [hmain]; simp, by rw [hmain]; simp⟩

/-- Witness for the amended C9 at the concrete failing-decode environment. -/
theorem submitProof_decode_fatal_witness :
    submitProofCore Witnesses.envC9 [2] [3] = ([], .error .journalDecodeFailure) :=
  (submitProof_decode_fatal Witnesses.envC9 [2] [3] rfl).1

end SubmitProofClient
